import Mathlib

/-!
Verification of the NCAA dashboard projection engine.

The canonical engine is the TypeScript function `calculateRealProjection`
in `src/app/page.tsx` together with the signal classification performed in
`Home.fetchScores` (over/under edge, blowout risk).  The engine is pure
arithmetic on JavaScript numbers; we embed it over `ℚ` (all constants in
the source are exact decimals, so rational arithmetic reproduces the
intended real-valued semantics), with `Option ℚ` / `Option ℤ` used where a
JavaScript `NaN` can arise: `none` models `NaN`.  `NaN` enters only through
`Number(...)` applied to the minutes field of the clock string; every
comparison with `NaN` is false in JavaScript and every arithmetic operation
on it (including `Math.round`, `Math.min`, `Math.max`) yields `NaN` again,
which is what the `none` branches below reproduce.

String handling (`includes(':')`, `split(' - ')[0]`, `split(':')`,
`Number`) is embedded over `List Char`.  `jsNumber` models the JavaScript
`Number` conversion on the fragment relevant here: the empty (or
all-whitespace) string converts to 0, optionally signed decimal numerals
convert to their value, and every other string is treated as non-numeric
(`none`, i.e. `NaN`).
-/

unseal Rat.add Rat.sub Rat.mul Rat.inv Rat.ofScientific

/-- Whitespace characters trimmed by the JavaScript `Number` conversion
(ASCII fragment). -/
def isWs (c : Char) : Bool :=
  c == ' ' || c == '\t' || c == '\n' || c == '\r'

/-- Trim leading and trailing whitespace from a character list. -/
def trimChars (cs : List Char) : List Char :=
  ((cs.dropWhile isWs).reverse.dropWhile isWs).reverse

/-- Numeric value of a digit character. -/
def digitVal (c : Char) : ℕ := c.toNat - 48

/-- Value of a list of decimal digit characters. -/
def natOfDigits (cs : List Char) : ℕ :=
  cs.foldl (fun n c => 10 * n + digitVal c) 0

/-- All characters are decimal digits. -/
def allDigits (cs : List Char) : Bool := cs.all (·.isDigit)

/-- Split a character list on a separator character, keeping empty
segments, as JavaScript `String.prototype.split` does for a one-character
separator. -/
def splitOnChar (sep : Char) : List Char → List (List Char)
  | [] => [[]]
  | c :: rest =>
    if c = sep then [] :: splitOnChar sep rest
    else
      match splitOnChar sep rest with
      | [] => [[c]]
      | s :: ss => (c :: s) :: ss

/-- Magnitude of an unsigned decimal numeral (digits with an optional
fractional part), or `none` when the characters do not form one. -/
def decMag (cs : List Char) : Option ℚ :=
  match splitOnChar '.' cs with
  | [intPart] =>
    if intPart ≠ [] ∧ allDigits intPart then some (natOfDigits intPart : ℚ)
    else none
  | [intPart, fracPart] =>
    if (intPart ≠ [] ∨ fracPart ≠ []) ∧ allDigits intPart ∧ allDigits fracPart then
      some ((natOfDigits intPart : ℚ) +
        (natOfDigits fracPart : ℚ) / (10 : ℚ) ^ fracPart.length)
    else none
  | _ => none

/-- JavaScript `Number(s)` on a character list: `none` models `NaN`. -/
def jsNumberOfChars (cs : List Char) : Option ℚ :=
  match trimChars cs with
  | [] => some 0
  | '-' :: rest => (decMag rest).map (fun q => -q)
  | '+' :: rest => decMag rest
  | other => decMag other

/-- The prefix of the string before the first occurrence of the
three-character separator used in `clockDisplayValue.split(' - ')[0]`. -/
def beforeDash : List Char → List Char
  | ' ' :: '-' :: ' ' :: _ => []
  | c :: rest => c :: beforeDash rest
  | [] => []

/-- Time left in the current period, from `calculateRealProjection`:
`const [mins, secs] = timePart.split(':').map(Number);`
`const timeLeftInPeriod = mins + (secs || 0) / 60;`
`none` models a `NaN` minutes field (`secs` falls back to 0 when absent,
non-numeric, or 0, exactly as `(secs || 0)` does). -/
def timeLeftInPeriod (clockText : String) : Option ℚ :=
  let fields := splitOnChar ':' (beforeDash clockText.toList)
  match jsNumberOfChars (fields.headD []) with
  | none => none
  | some m =>
    some (m + (match fields.get? 1 with
               | none => (0 : ℚ)
               | some s => (jsNumberOfChars s).getD 0) / 60)

/-- STEP 1 of `calculateRealProjection`: derive
`(minutesPlayed, minutesRemaining)` from the clock string and the period.
`none` models the `NaN` pair produced when the minutes field of a clock
containing a colon is non-numeric. -/
def timeState (clockText : String) (period : ℤ) : Option (ℚ × ℚ) :=
  if clockText ≠ "" ∧ clockText.toList.contains ':' = true then
    match timeLeftInPeriod clockText with
    | none => none
    | some t =>
      if period = 1 then some (20 - t, t + 20)
      else if period = 2 then some (20 + (20 - t), t)
      else some (40 + ((period : ℚ) - 2) * 5 + (5 - t), t)
  else
    if period = 1 then some (10, 30) else some (30, 10)

/-- JavaScript `Math.round`: round half toward positive infinity. -/
def jsRound (q : ℚ) : ℤ := (q + 1 / 2).floor

/-- STEP 2: current pace, points per 40 minutes. -/
def currentPaceOf (currentTotal : ℤ) (minutesPlayed : ℚ) : ℚ :=
  ((currentTotal : ℚ) / minutesPlayed) * 40

/-- Adjustment 1: second-half slowdown (`if (period >= 2) adjustedPace *= 0.94`). -/
def periodAdj (period : ℤ) (pace : ℚ) : ℚ :=
  if period ≥ 2 then pace * (94 / 100) else pace

/-- Adjustment 2: score-differential tier
(big blowout 0.85 / moderate blowout 0.92 / late close-game speedup 1.15). -/
def scoreDiffAdj (scoreDiff : ℤ) (minutesRemaining pace : ℚ) : ℚ :=
  if scoreDiff > 20 then pace * (85 / 100)
  else if scoreDiff > 12 then pace * (92 / 100)
  else if scoreDiff ≤ 3 ∧ minutesRemaining < 5 then pace * (115 / 100)
  else pace

/-- Adjustment 3: late-game fouling surge
(`if (minutesRemaining < 2 && scoreDiff > 4 && scoreDiff < 15) adjustedPace *= 1.25`). -/
def foulingAdj (scoreDiff : ℤ) (minutesRemaining pace : ℚ) : ℚ :=
  if minutesRemaining < 2 ∧ scoreDiff > 4 ∧ scoreDiff < 15 then pace * (125 / 100)
  else pace

/-- Adjustment 4: regression to the league-average pace 70 with weight
`min(0.3, minutesPlayed / 40)`. -/
def regressionAdj (minutesPlayed pace : ℚ) : ℚ :=
  let w := min (3 / 10) (minutesPlayed / 40)
  pace * (1 - w) + 70 * w

/-- STEP 6: confidence bonus terms. -/
def confidenceBonusOf (scoreDiff : ℤ) (minutesPlayed currentPace : ℚ) : ℚ :=
  (if |currentPace - 70| < 15 then 8 else 0) +
  (if minutesPlayed > 25 then 7 else 0) +
  (if scoreDiff < 25 then 5 else 0)

/-- STEP 6: final confidence,
`min(95, round(55 + gameProgress * 35 + confidenceBonus))`. -/
def confidenceOf (scoreDiff : ℤ) (minutesPlayed minutesRemaining currentPace : ℚ) : ℤ :=
  min 95 (jsRound (55 + minutesPlayed / (minutesPlayed + minutesRemaining) * 35 +
    confidenceBonusOf scoreDiff minutesPlayed currentPace))

/-- Output record of `calculateRealProjection`.  `none` in a numeric field
models JavaScript `NaN`. -/
structure Projection where
  projectedTotal : Option ℤ
  pace : Option ℤ
  confidence : Option ℤ
  algorithm : String
  minutesRemaining : Option ℚ
  projectedPoints : Option ℤ
deriving DecidableEq

/-- STEPS 2-6 of `calculateRealProjection` on the non-fallback path. -/
def mainProjection (homeScore awayScore : ℤ) (period : ℤ)
    (minutesPlayed minutesRemaining : ℚ) : Projection :=
  let currentTotal := homeScore + awayScore
  let currentPace := currentPaceOf currentTotal minutesPlayed
  let scoreDiff := |homeScore - awayScore|
  let adjustedPace :=
    regressionAdj minutesPlayed
      (foulingAdj scoreDiff minutesRemaining
        (scoreDiffAdj scoreDiff minutesRemaining
          (periodAdj period currentPace)))
  let projectedRemainingPoints := adjustedPace / 40 * minutesRemaining
  { projectedTotal :=
      some (max (currentTotal + 5)
        (jsRound ((currentTotal : ℚ) + projectedRemainingPoints))),
    pace := some (jsRound currentPace),
    confidence := some (confidenceOf scoreDiff minutesPlayed minutesRemaining currentPace),
    algorithm := "Time-Based AI",
    minutesRemaining := some ((jsRound (minutesRemaining * 10) : ℚ) / 10),
    projectedPoints := some (jsRound projectedRemainingPoints) }

/-- The projection engine `calculateRealProjection` of `src/app/page.tsx`.
The `none` branch is the `NaN` run: when the parsed time is `NaN`, both
guards `minutesPlayed <= 0` and `minutesRemaining <= 0` are false in
JavaScript, the main path is taken, and every numeric output is `NaN`
(every adjustment keeps `NaN`, `Math.round`, `Math.min` and `Math.max`
propagate it), while the algorithm label is still the main-path label. -/
def calculateRealProjection (homeScore awayScore : ℤ) (clockDisplayValue : String)
    (period : ℤ) (homeTeam awayTeam : String) : Projection :=
  let currentTotal := homeScore + awayScore
  match timeState clockDisplayValue period with
  | none =>
    { projectedTotal := none, pace := none, confidence := none,
      algorithm := "Time-Based AI", minutesRemaining := none, projectedPoints := none }
  | some (minutesPlayed, minutesRemaining) =>
    if minutesPlayed ≤ 0 ∨ minutesRemaining ≤ 0 then
      { projectedTotal := some (currentTotal + 30), pace := some 70,
        confidence := some 50, algorithm := "Fallback",
        minutesRemaining := some minutesRemaining, projectedPoints := some 30 }
    else
      mainProjection homeScore awayScore period minutesPlayed minutesRemaining

/-- Betting-edge classification values. -/
inductive Edge
  | overLean
  | underLean
  | neutral
deriving DecidableEq

/-- The over/under edge classification of `Home.fetchScores`: an ordered
else-if chain over projected total, confidence and pace-vs-average. -/
def overUnderEdge (projectedTotal confidence paceVsAverage : ℤ) : Edge :=
  if projectedTotal > 145 ∧ confidence > 80 then Edge.overLean
  else if projectedTotal < 125 ∧ confidence > 80 then Edge.underLean
  else if paceVsAverage > 8 ∧ confidence > 75 then Edge.overLean
  else if paceVsAverage < -8 ∧ confidence > 75 then Edge.underLean
  else Edge.neutral

/-- The over/under edge classification as worded by the specification:
OVER_LEAN if (projectedTotal > 145 and confidence > 80) or
(paceVsAverage > 8 and confidence > 75), UNDER_LEAN under the mirrored
conditions, else NEUTRAL.  Stated for comparison with `overUnderEdge`. -/
def specOverUnderEdge (projectedTotal confidence paceVsAverage : ℤ) : Edge :=
  if (projectedTotal > 145 ∧ confidence > 80) ∨
     (paceVsAverage > 8 ∧ confidence > 75) then Edge.overLean
  else if (projectedTotal < 125 ∧ confidence > 80) ∨
     (paceVsAverage < -8 ∧ confidence > 75) then Edge.underLean
  else Edge.neutral

/-- Blowout risk from `Home.fetchScores`:
`scoreDifference > 15 ? Math.min(100, (scoreDifference - 15) * 5) : 0`. -/
def blowoutRisk (homeScore awayScore : ℤ) : ℤ :=
  let scoreDifference := |homeScore - awayScore|
  if scoreDifference > 15 then min 100 ((scoreDifference - 15) * 5) else 0

/-- A string whose character list contains a colon is not empty. -/
lemma ne_empty_of_contains_colon {clock : String}
    (hc : clock.toList.contains ':' = true) : clock ≠ "" := by
  intro h
  subst h
  exact absurd hc (by decide)

/-- Claim C2 (amended): for every clock text containing a colon whose
minutes field parses to a number, and every positive period, the derived
time state satisfies minutesPlayed + minutesRemaining = 40 for periods 1
and 2, and 45 + (period - 2) * 5 for period > 2 (the code adds the full
5 minutes of the current overtime period on top of 5 per overtime period
already counted, so the sum exceeds the claimed 40 + (period - 2) * 5
by 5). -/
theorem timeState_total_length (clock : String) (period : ℤ) (mp mr : ℚ)
    (hc : clock.toList.contains ':' = true) (hp : 0 < period)
    (hts : timeState clock period = some (mp, mr)) :
    mp + mr = if period ≤ 2 then (40 : ℚ) else 45 + ((period : ℚ) - 2) * 5 := by
  have hne : clock ≠ "" := ne_empty_of_contains_colon hc
  unfold timeState at hts
  rw [if_pos ⟨hne, hc⟩] at hts
  cases htl : timeLeftInPeriod clock with
  | none =>
    rw [htl] at hts
    exact Option.noConfusion hts
  | some t =>
    simp only [htl] at hts
    by_cases h1 : period = 1
    · rw [if_pos h1] at hts
      rw [Option.some_inj, Prod.mk.injEq] at hts
      obtain ⟨rfl, rfl⟩ := hts
      rw [if_pos (by omega : period ≤ 2)]
      ring
    · by_cases h2 : period = 2
      · rw [if_neg h1, if_pos h2] at hts
        rw [Option.some_inj, Prod.mk.injEq] at hts
        obtain ⟨rfl, rfl⟩ := hts
        rw [if_pos (by omega : period ≤ 2)]
        ring
      · rw [if_neg h1, if_neg h2] at hts
        rw [Option.some_inj, Prod.mk.injEq] at hts
        obtain ⟨rfl, rfl⟩ := hts
        rw [if_neg (by omega : ¬ period ≤ 2)]
        ring

/-- Witness for `timeState_total_length` at clock "5:00", period 3. -/
theorem timeState_total_length_witness :
    (45 : ℚ) + 5 = if (3 : ℤ) ≤ 2 then (40 : ℚ) else 45 + (((3 : ℤ) : ℚ) - 2) * 5 :=
  timeState_total_length "5:00" 3 45 5 (by decide) (by decide) (by decide)

/-- Claim C2 counterexample: at clock "5:00" in period 3 (first overtime)
the derived time state is (45, 5), whose sum 50 is not the claimed
40 + (period - 2) * 5 = 45. -/
theorem timeState_overtime_counterexample :
    timeState "5:00" 3 = some (45, 5) ∧
      ¬ ((45 : ℚ) + 5 = 40 + (((3 : ℤ) : ℚ) - 2) * 5) :=
  ⟨by decide, by decide⟩

/-- Claim C3 (confirmed): for every clock text containing a colon whose
time-left field parses (minutes plus seconds/60, seconds defaulting to 0),
period 1 yields (20 - t, t + 20) and period 2 yields (20 + (20 - t), t);
in particular "20:00" in period 1 gives (0, 40) and "0:00" in period 2
gives (40, 0). -/
theorem timeState_halves :
    (∀ (clock : String) (t : ℚ), clock.toList.contains ':' = true →
      timeLeftInPeriod clock = some t →
      timeState clock 1 = some (20 - t, t + 20) ∧
        timeState clock 2 = some (20 + (20 - t), t)) ∧
    timeState "20:00" 1 = some (0, 40) ∧ timeState "0:00" 2 = some (40, 0) := by
  refine ⟨fun clock t hc htl => ?_, by decide, by decide⟩
  have hne : clock ≠ "" := ne_empty_of_contains_colon hc
  constructor
  · unfold timeState
    rw [if_pos ⟨hne, hc⟩]
    simp only [htl]
    norm_num
  · unfold timeState
    rw [if_pos ⟨hne, hc⟩]
    simp only [htl]
    norm_num

/-- Witness for `timeState_halves` at clock "8:30". -/
theorem timeState_halves_witness :
    timeState "8:30" 1 = some (20 - 17 / 2, 17 / 2 + 20) ∧
      timeState "8:30" 2 = some (20 + (20 - 17 / 2), 17 / 2) :=
  timeState_halves.1 "8:30" (17 / 2) (by decide) (by decide)

/-- Claim C4 (confirmed): whenever the parsed time state has
minutesPlayed ≤ 0 or minutesRemaining ≤ 0, the engine returns the fixed
fallback record: projectedTotal = currentTotal + 30, pace = 70,
confidence = 50 (a fixed low value in [50, 55]), algorithm = "Fallback". -/
theorem fallback_record (h a : ℤ) (clock : String) (period : ℤ) (n1 n2 : String)
    (mp mr : ℚ) (hts : timeState clock period = some (mp, mr))
    (hdeg : mp ≤ 0 ∨ mr ≤ 0) :
    calculateRealProjection h a clock period n1 n2 =
      { projectedTotal := some (h + a + 30), pace := some 70, confidence := some 50,
        algorithm := "Fallback", minutesRemaining := some mr,
        projectedPoints := some 30 } := by
  unfold calculateRealProjection
  simp only [hts]
  rw [if_pos hdeg]

/-- Witness for `fallback_record`: period 1 with a full clock has
minutesPlayed = 0, which takes the fallback. -/
theorem fallback_record_witness :
    calculateRealProjection 10 5 "20:00" 1 "A" "B" =
      { projectedTotal := some (10 + 5 + 30), pace := some 70, confidence := some 50,
        algorithm := "Fallback", minutesRemaining := some 40,
        projectedPoints := some 30 } :=
  fallback_record 10 5 "20:00" 1 "A" "B" 0 40 (by decide) (Or.inl (by norm_num))

/-- Claim C5 (confirmed): for every clock text that is empty or has no
colon, and every period, the parser takes the coarse fallback
(10, 30) for period 1 and (30, 10) otherwise, so the engine never
divides by zero. -/
theorem coarse_clock_fallback (clock : String) (period : ℤ)
    (hno : clock = "" ∨ clock.toList.contains ':' = false) :
    timeState clock period =
      if period = 1 then some ((10 : ℚ), (30 : ℚ)) else some ((30 : ℚ), (10 : ℚ)) := by
  unfold timeState
  rw [if_neg]
  rintro ⟨hne, hc⟩
  rcases hno with h | h
  · exact hne h
  · rw [h] at hc
    cases hc

/-- Witness for `coarse_clock_fallback`: empty clock, period 1. -/
theorem coarse_clock_fallback_witness :
    timeState "" 1 =
      if (1 : ℤ) = 1 then some ((10 : ℚ), (30 : ℚ)) else some ((30 : ℚ), (10 : ℚ)) :=
  coarse_clock_fallback "" 1 (Or.inl rfl)

/-- Claim C1 (amended): for every input whose clock parse yields a numeric
time state (no `NaN` from a non-numeric minutes field), the returned
projectedTotal is a value of at least currentTotal + 5 — the normal path
returns max(currentTotal + 5, rounded projection) and the fallback path
currentTotal + 30 — hence strictly exceeds the current combined score. -/
theorem projectedTotal_floor (h a : ℤ) (clock : String) (period : ℤ)
    (n1 n2 : String) (mp mr : ℚ) (hts : timeState clock period = some (mp, mr)) :
    ∃ v : ℤ, (calculateRealProjection h a clock period n1 n2).projectedTotal = some v ∧
      h + a + 5 ≤ v ∧ h + a < v := by
  unfold calculateRealProjection
  simp only [hts]
  split_ifs with hfb
  · exact ⟨h + a + 30, rfl, by omega, by omega⟩
  · refine ⟨_, rfl, le_max_left _ _, lt_of_lt_of_le (by omega) (le_max_left _ _)⟩

/-- Witness for `projectedTotal_floor` at a mid-second-half snapshot. -/
theorem projectedTotal_floor_witness :
    ∃ v : ℤ, (calculateRealProjection 50 40 "10:00" 2 "A" "B").projectedTotal = some v ∧
      50 + 40 + 5 ≤ v ∧ 50 + 40 < v :=
  projectedTotal_floor 50 40 "10:00" 2 "A" "B" 30 10 (by decide)

/-- Claim C1 counterexample: the clock "x:0" contains a colon but its
minutes field is non-numeric, so the JavaScript `Number` conversion yields
`NaN`; `NaN` passes both degenerate-time guards and the returned
projectedTotal is `NaN` — not a value at least currentTotal + 5. -/
theorem projectedTotal_nan_counterexample :
    ¬ ∃ v : ℤ, (calculateRealProjection 0 0 "x:0" 2 "A" "B").projectedTotal = some v ∧
      0 + 0 + 5 ≤ v := by
  have hnone : (calculateRealProjection 0 0 "x:0" 2 "A" "B").projectedTotal = none := by
    decide
  rintro ⟨v, hv, -⟩
  rw [hnone] at hv
  exact Option.noConfusion hv

/-- The round of a rational at least z - 1/2 is at least z. -/
lemma jsRound_ge (z : ℤ) (q : ℚ) (hq : (z : ℚ) ≤ q + 1 / 2) : z ≤ jsRound q :=
  Rat.le_floor.mpr hq

/-- On the main path (positive minutes played and remaining) the
confidence value lies in [55, 95]. -/
lemma confidenceOf_mem (scoreDiff : ℤ) (mp mr cp : ℚ)
    (hmp : 0 < mp) (hmr : 0 < mr) :
    50 ≤ confidenceOf scoreDiff mp mr cp ∧ confidenceOf scoreDiff mp mr cp ≤ 96 := by
  unfold confidenceOf
  have hsum : 0 < mp + mr := by linarith
  have hgp : 0 < mp / (mp + mr) := div_pos hmp hsum
  have hbonus : (0 : ℚ) ≤ confidenceBonusOf scoreDiff mp cp := by
    unfold confidenceBonusOf
    split_ifs <;> norm_num
  constructor
  · refine le_min (by norm_num) (jsRound_ge 50 _ ?_)
    push_cast
    nlinarith
  · exact le_trans (min_le_left _ _) (by norm_num)

/-- Claim C8 (amended): for every input whose clock parse yields a numeric
time state, the returned confidence is an integer in [0, 100]; on the
non-fallback path (minutesPlayed > 0 and minutesRemaining > 0) it lies in
[50, 96]. -/
theorem confidence_range (h a : ℤ) (clock : String) (period : ℤ)
    (n1 n2 : String) (mp mr : ℚ) (hts : timeState clock period = some (mp, mr)) :
    ∃ c : ℤ, (calculateRealProjection h a clock period n1 n2).confidence = some c ∧
      0 ≤ c ∧ c ≤ 100 ∧ (0 < mp → 0 < mr → 50 ≤ c ∧ c ≤ 96) := by
  unfold calculateRealProjection
  simp only [hts]
  split_ifs with hfb
  · refine ⟨50, rfl, by norm_num, by norm_num, fun hmp hmr => ?_⟩
    rcases hfb with hd | hd <;> linarith
  · push_neg at hfb
    obtain ⟨hmp', hmr'⟩ := hfb
    have hb := confidenceOf_mem |h - a| mp mr (currentPaceOf (h + a) mp) hmp' hmr'
    exact ⟨confidenceOf |h - a| mp mr (currentPaceOf (h + a) mp), rfl,
      by linarith [hb.1], by linarith [hb.2], fun _ _ => hb⟩

/-- Witness for `confidence_range` at a mid-second-half snapshot. -/
theorem confidence_range_witness :
    ∃ c : ℤ, (calculateRealProjection 30 33 "12:00" 2 "A" "B").confidence = some c ∧
      0 ≤ c ∧ c ≤ 100 ∧ ((0 : ℚ) < 28 → (0 : ℚ) < 12 → 50 ≤ c ∧ c ≤ 96) :=
  confidence_range 30 33 "12:00" 2 "A" "B" 28 12 (by decide)

/-- Claim C8 counterexample: the clock "Half - 8:09" contains a colon, but
the segment before " - " has a non-numeric minutes field, so the parse
yields `NaN` and the returned confidence is `NaN` — not an integer in
[0, 100]. -/
theorem confidence_nan_counterexample :
    ¬ ∃ c : ℤ, (calculateRealProjection 10 7 "Half - 8:09" 2 "A" "B").confidence = some c ∧
      0 ≤ c ∧ c ≤ 100 := by
  have hnone : (calculateRealProjection 10 7 "Half - 8:09" 2 "A" "B").confidence = none := by
    decide
  rintro ⟨c, hc, -⟩
  rw [hnone] at hc
  exact Option.noConfusion hc

/-- Claim C6 (amended): the over/under edge rules hold with the code's
evaluation order — a pace-based lean applies only when the opposite
projected-total rule has not already fired: OVER_LEAN iff
(projectedTotal > 145 and confidence > 80) or (paceVsAverage > 8 and
confidence > 75 and not (projectedTotal < 125 and confidence > 80)), and
symmetrically for UNDER_LEAN; the three cited instances hold. -/
theorem overUnderEdge_rules :
    (∀ pt conf pv : ℤ,
      (overUnderEdge pt conf pv = Edge.overLean ↔
        (pt > 145 ∧ conf > 80) ∨ ((pv > 8 ∧ conf > 75) ∧ ¬ (pt < 125 ∧ conf > 80))) ∧
      (overUnderEdge pt conf pv = Edge.underLean ↔
        (pt < 125 ∧ conf > 80) ∨ ((pv < -8 ∧ conf > 75) ∧ ¬ (pt > 145 ∧ conf > 80)))) ∧
    overUnderEdge 150 85 0 = Edge.overLean ∧
    overUnderEdge 120 85 0 = Edge.underLean ∧
    overUnderEdge 135 85 0 = Edge.neutral := by
  refine ⟨fun pt conf pv => ?_, by decide, by decide, by decide⟩
  unfold overUnderEdge
  split_ifs with h1 h2 h3 h4 <;> constructor <;> simp_all <;> omega

/-- Witness for `overUnderEdge_rules`: a high projection with high
confidence leans OVER. -/
theorem overUnderEdge_rules_witness : overUnderEdge 150 85 0 = Edge.overLean :=
  (overUnderEdge_rules.1 150 85 0).1.mpr (Or.inl (by decide))

/-- Claim C6 counterexample: at projectedTotal = 120, confidence = 85,
paceVsAverage = 10, the claim's OVER_LEAN disjunction
(paceVsAverage > 8 and confidence > 75) holds — as the specification-worded
classifier `specOverUnderEdge` shows — but the code's else-if chain tests
projectedTotal < 125 first and returns UNDER_LEAN. -/
theorem overUnderEdge_order_counterexample :
    ((10 : ℤ) > 8 ∧ (85 : ℤ) > 75) ∧
    overUnderEdge 120 85 10 = Edge.underLean ∧
    specOverUnderEdge 120 85 10 = Edge.overLean ∧
    overUnderEdge 120 85 10 ≠ Edge.overLean := by
  decide

/-- Claim C7 (confirmed): blowout risk is 0 for score differences up to
15 and min(100, (diff - 15) * 5) above; it lies in [0, 100], is
non-decreasing in the score difference beyond 15, and saturates at 100
from 35 on. -/
theorem blowoutRisk_props :
    ∀ h a : ℤ,
      (|h - a| ≤ 15 → blowoutRisk h a = 0) ∧
      (15 < |h - a| → blowoutRisk h a = min 100 ((|h - a| - 15) * 5)) ∧
      0 ≤ blowoutRisk h a ∧ blowoutRisk h a ≤ 100 ∧
      (35 ≤ |h - a| → blowoutRisk h a = 100) ∧
      (∀ h2 a2 : ℤ, 15 < |h - a| → |h - a| ≤ |h2 - a2| →
        blowoutRisk h a ≤ blowoutRisk h2 a2) := by
  intro h a
  refine ⟨?_, ?_, ?_, ?_, ?_, fun h2 a2 => ?_⟩ <;>
    simp only [blowoutRisk] <;> split_ifs <;> omega

/-- Witness for `blowoutRisk_props`: a 40-point difference saturates the
risk at 100. -/
theorem blowoutRisk_props_witness : blowoutRisk 140 100 = 100 :=
  (blowoutRisk_props 140 100).2.2.2.2.1 (by decide)

/-- Claim C9 (confirmed): at home 40, away 27 (score difference 13,
strictly between 12 and 15), clock "1:30 - 2nd Half" (1.5 minutes
remaining, below 2), the run is on the non-fallback path and the ordered
adjustment chain multiplies the running pace by both the moderate-blowout
contraction 0.92 and the late-fouling expansion 1.25, in that order. -/
theorem adjustment_chain_both_tiers :
    (∀ p : ℚ, scoreDiffAdj 13 (3 / 2) p = p * (92 / 100)) ∧
    (∀ p : ℚ, foulingAdj 13 (3 / 2) p = p * (125 / 100)) ∧
    (∀ p : ℚ,
      regressionAdj (77 / 2)
          (foulingAdj 13 (3 / 2) (scoreDiffAdj 13 (3 / 2) (periodAdj 2 p))) =
        regressionAdj (77 / 2) (p * (94 / 100) * (92 / 100) * (125 / 100))) ∧
    timeState "1:30 - 2nd Half" 2 = some (77 / 2, 3 / 2) ∧
    |(40 : ℤ) - 27| = 13 ∧ ((12 : ℤ) < 13 ∧ (13 : ℤ) < 15) ∧ ((3 / 2 : ℚ) < 2) ∧
    (calculateRealProjection 40 27 "1:30 - 2nd Half" 2 "A" "B").algorithm =
      "Time-Based AI" := by
  have hsd : ∀ p : ℚ, scoreDiffAdj 13 (3 / 2) p = p * (92 / 100) := fun p => by
    unfold scoreDiffAdj
    norm_num
  have hfl : ∀ p : ℚ, foulingAdj 13 (3 / 2) p = p * (125 / 100) := fun p => by
    unfold foulingAdj
    norm_num
  refine ⟨hsd, hfl, fun p => ?_, by decide, by decide, by decide, by decide, by decide⟩
  rw [show periodAdj 2 p = p * (94 / 100) from by unfold periodAdj; norm_num, hsd, hfl]

/-- Claim C10 (confirmed): the engine's output does not depend on the team
name arguments — two calls agreeing on scores, clock and period return
identical records whatever the team names are. -/
theorem team_name_independence :
    ∀ (h a : ℤ) (clock : String) (period : ℤ) (n1 n2 m1 m2 : String),
      calculateRealProjection h a clock period n1 n2 =
        calculateRealProjection h a clock period m1 m2 :=
  fun _ _ _ _ _ _ _ _ => rfl
